import Mathlib

/-!
# Verification of the Shop API request/response validation and document-mapping layer

A shallow embedding of the repository's core (src/schemas.py and src/main.py):
pydantic schema validation for `Product`, `OrderItem` and `Order`, the document
mappers `to_product_out` / `to_order_out`, and the route handlers
`list_products`, `create_product`, `list_orders`, `create_order` and
`test_database`.

Modelling conventions:
* JSON/BSON values are the inductive `Value`; a stored document is an
  association list of field name to `Value`.  `dget doc k` models Python's
  `doc.get(k)` (absent keys give `None`, embedded as `Value.null`).
* Python floats are modelled as rationals (`ℚ`); the code only compares them
  with `0` and copies them around, so no rounding behaviour is relevant.
* Fallible Python computations (exceptions from `float(...)`, pydantic
  `ValidationError`s) are embedded as `Except Err`.
* The store accessors (`db`, `get_documents`, `create_document` from
  `database`) are not part of the sources; they are modelled from the spec
  where needed, or kept abstract as parameters.
-/

namespace Shop

/-- A JSON/BSON-like value as stored in a document or sent in a request body.
`oid s` is a BSON ObjectId whose textual (hex) form is `s`. -/
inductive Value where
  | null
  | bool (b : Bool)
  | num (q : ℚ)
  | str (s : String)
  | oid (s : String)
  | arr (elems : List Value)
  | obj (fields : List (String × Value))

/-- A stored document: a loosely typed key-value record. -/
abbrev Doc := List (String × Value)

/-- `lookup? o k` finds the value of field `k` if the key is present. -/
def lookup? (o : List (String × Value)) (k : String) : Option Value :=
  (o.find? (fun kv => kv.1 == k)).map (fun kv => kv.2)

/-- Python `doc.get(k)`: the stored value, or `None` when the key is absent. -/
def dget (doc : Doc) (k : String) : Value :=
  match lookup? doc k with
  | some v => v
  | none => .null

/-- Python `doc.get(k, dflt)`. -/
def dgetD (doc : Doc) (k : String) (dflt : Value) : Value :=
  match lookup? doc k with
  | some v => v
  | none => dflt

/-- Errors raised by the embedded Python code: pydantic validation errors
(`missing`/`wrongType`/`outOfRange`/`notEmail`, tagged with the offending
field) and built-in exceptions from coercions (`typeError`, `valueError`). -/
inductive Err where
  | missing (field : String)
  | wrongType (field : String)
  | outOfRange (field : String)
  | notEmail (field : String)
  | typeError (msg : String)
  | valueError (msg : String)

/-- `true` exactly on the error branch of an `Except`. -/
def isErr {ε α : Type} : Except ε α → Bool
  | .error _ => true
  | .ok _ => false

/-- Elementwise fallible map, as pydantic validates the elements of a
`List[...]` field: first failure aborts, order is preserved. -/
def mapE {α β : Type} (f : α → Except Err β) : List α → Except Err (List β)
  | [] => .ok []
  | x :: xs =>
    match f x with
    | .error e => .error e
    | .ok y =>
      match mapE f xs with
      | .error e => .error e
      | .ok ys => .ok (y :: ys)

/-- Numeric value of a list of decimal digit characters. -/
def digitsVal (cs : List Char) : ℕ :=
  cs.foldl (fun n c => 10 * n + (c.toNat - 48)) 0

/-- Parse a decimal literal the way Python `float(...)` parses a plain string:
optional sign, integer part, optional fractional part (at least one digit
overall).  Exotic forms (exponents, `inf`, `nan`, surrounding whitespace) are
not produced by this code base and are not modelled. -/
def parseRat? (s : String) : Option ℚ :=
  let core : List Char → Option ℚ := fun cs =>
    let ip := cs.takeWhile Char.isDigit
    match cs.dropWhile Char.isDigit with
    | [] => if ip.isEmpty then none else some (digitsVal ip : ℚ)
    | '.' :: fp =>
      if fp.all Char.isDigit && !(ip.isEmpty && fp.isEmpty) then
        some ((digitsVal ip : ℚ) + (digitsVal fp : ℚ) / (10 : ℚ) ^ fp.length)
      else none
    | _ => none
  match s.data with
  | '-' :: r => (core r).map Neg.neg
  | '+' :: r => core r
  | r => core r

/-- Parse a decimal integer literal: optional sign then digits. -/
def parseInt? (s : String) : Option ℤ :=
  let core : List Char → Option ℤ := fun cs =>
    if !cs.isEmpty && cs.all Char.isDigit then some (digitsVal cs : ℤ) else none
  match s.data with
  | '-' :: r => (core r).map Neg.neg
  | '+' :: r => core r
  | r => core r

/-! ## Python built-in coercions used by the mappers -/

/-- Python `float(v)`: numbers pass through, booleans become 0/1, strings are
parsed (`ValueError` on failure), anything else raises `TypeError` — in
particular `float(None)` is a `TypeError`. -/
def pyFloat : Value → Except Err ℚ
  | .num q => .ok q
  | .bool b => .ok (if b then 1 else 0)
  | .str s =>
    match parseRat? s with
    | some q => .ok q
    | none => .error (.valueError "could not convert string to float")
  | .null => .error (.typeError "float() argument must be a string or a real number, not NoneType")
  | .oid _ => .error (.typeError "float() argument must be a string or a real number, not ObjectId")
  | .arr _ => .error (.typeError "float() argument must be a string or a real number, not list")
  | .obj _ => .error (.typeError "float() argument must be a string or a real number, not dict")

/-- Python `str(v)` for the values this code applies it to.  The routes only
ever take `str` of an ObjectId, a string, `None`, a bool or a number; the
string image of compound values is never observed and is modelled coarsely. -/
def pyStr : Value → String
  | .null => "None"
  | .bool true => "True"
  | .bool false => "False"
  | .num q => toString q
  | .str s => s
  | .oid s => s
  | .arr _ => "<list>"
  | .obj _ => "<dict>"

/-- Python truthiness, `bool(v)`: `None`, `False`, `0`, empty strings and
empty containers are falsy, everything else truthy. -/
def pyTruthy : Value → Bool
  | .null => false
  | .bool b => b
  | .num q => decide (q ≠ 0)
  | .str s => !s.isEmpty
  | .oid _ => true
  | .arr xs => !xs.isEmpty
  | .obj fs => !fs.isEmpty

/-! ## pydantic field validators

One function per annotated field type, as pydantic validates a single value
against an annotation.  Lax-mode numeric coercion from strings is modelled via
the decimal parsers above. -/

/-- pydantic `str` field: accepts exactly strings. -/
def vStr (field : String) : Value → Except Err String
  | .str s => .ok s
  | _ => .error (.wrongType field)

/-- pydantic `Optional[str]` field: `None` or a string. -/
def vOptStr (field : String) : Value → Except Err (Option String)
  | .null => .ok none
  | .str s => .ok (some s)
  | _ => .error (.wrongType field)

/-- pydantic `float` field: numbers pass, numeric strings are coerced. -/
def vFloat (field : String) : Value → Except Err ℚ
  | .num q => .ok q
  | .str s =>
    match parseRat? s with
    | some q => .ok q
    | none => .error (.wrongType field)
  | _ => .error (.wrongType field)

/-- pydantic `int` field: integral numbers pass, integer strings are coerced. -/
def vInt (field : String) : Value → Except Err ℤ
  | .num q => if q.den = 1 then .ok q.num else .error (.wrongType field)
  | .str s =>
    match parseInt? s with
    | some n => .ok n
    | none => .error (.wrongType field)
  | _ => .error (.wrongType field)

/-- pydantic `bool` field: booleans, and the 0/1 numeric literals of lax mode. -/
def vBool (field : String) : Value → Except Err Bool
  | .bool b => .ok b
  | .num q => if q = 0 then .ok false else if q = 1 then .ok true else .error (.wrongType field)
  | _ => .error (.wrongType field)

/-- `Field(..., ge=lo)` bound check on a rational field value. -/
def geCheck (field : String) (lo : ℚ) (q : ℚ) : Except Err ℚ :=
  if lo ≤ q then .ok q else .error (.outOfRange field)

/-- A `float` field with `ge=0`: numeric coercion then the bound check. -/
def vFloatGe0 (field : String) (v : Value) : Except Err ℚ := do
  let q ← vFloat field v
  geCheck field 0 q

/-- `Field(..., ge=lo)` bound check on an integer field value. -/
def geCheckInt (field : String) (lo : ℤ) (n : ℤ) : Except Err ℤ :=
  if lo ≤ n then .ok n else .error (.outOfRange field)

/-- A required field: absence is a validation error, otherwise the annotation
validator runs. -/
def reqField {α : Type} (o : List (String × Value)) (name : String)
    (f : String → Value → Except Err α) : Except Err α :=
  match lookup? o name with
  | none => .error (.missing name)
  | some v => f name v

/-- A field with a default: absence yields the default, a present value is
validated by the annotation validator. -/
def optField {α : Type} (o : List (String × Value)) (name : String) (dflt : α)
    (f : String → Value → Except Err α) : Except Err α :=
  match lookup? o name with
  | none => .ok dflt
  | some v => f name v

/-- The payload of a model must be a mapping. -/
def asObj (field : String) : Value → Except Err (List (String × Value))
  | .obj fs => .ok fs
  | _ => .error (.wrongType field)

/-- pydantic `EmailStr` field: a string that satisfies the email-syntax
predicate `emailOk`.  The predicate itself lives in the pydantic library, not
in this repository, so it is kept abstract as a parameter. -/
def vEmail (emailOk : String → Bool) (field : String) (v : Value) : Except Err String := do
  let s ← vStr field v
  if emailOk s then pure s else .error (.notEmail field)

/-- Modelled from the spec: pydantic's `EmailStr` syntax check (library code,
not in the repository) — "must match email-address syntax".  A concrete,
simplified instance used to run the validators on closed inputs: a non-empty
local part, one `@`, and a domain containing a dot. -/
def emailOkSpec (s : String) : Bool :=
  let cs := s.data
  let l := cs.takeWhile (fun c => c ≠ '@')
  match cs.dropWhile (fun c => c ≠ '@') with
  | '@' :: d => !l.isEmpty && !d.isEmpty && !d.contains '@' && d.contains '.'
  | _ => false

/-! ## Schema records and validators (src/schemas.py) -/

/-- A validated `Product` (schemas.py lines 30–40). -/
structure Product where
  title : String
  description : Option String
  price : ℚ
  category : String
  image : Option String
  in_stock : Bool

/-- pydantic validation of a `Product` payload: `title` required `str`,
`description` optional (default `None`), `price` required `float` with
`ge=0`, `category` required `str`, `image` optional, `in_stock` `bool`
defaulting to `True`. -/
def validateProduct (v : Value) : Except Err Product := do
  let o ← asObj "Product" v
  let title ← reqField o "title" vStr
  let description ← optField o "description" none vOptStr
  let price0 ← reqField o "price" vFloat
  let price ← geCheck "price" 0 price0
  let category ← reqField o "category" vStr
  let image ← optField o "image" none vOptStr
  let in_stock ← optField o "in_stock" true vBool
  return { title := title, description := description, price := price,
           category := category, image := image, in_stock := in_stock }

/-- A validated `OrderItem` (schemas.py lines 42–47). -/
structure OrderItem where
  product_id : String
  title : String
  price : ℚ
  quantity : ℤ
  image : Option String

/-- pydantic validation of an `OrderItem`: `product_id`, `title` required
strings, `price` required `float` `ge=0`, `quantity` required `int` `ge=1`,
`image` optional. -/
def validateOrderItem (v : Value) : Except Err OrderItem := do
  let o ← asObj "OrderItem" v
  let product_id ← reqField o "product_id" vStr
  let title ← reqField o "title" vStr
  let price0 ← reqField o "price" vFloat
  let price ← geCheck "price" 0 price0
  let quantity0 ← reqField o "quantity" vInt
  let quantity ← geCheckInt "quantity" 1 quantity0
  let image ← optField o "image" none vOptStr
  return { product_id := product_id, title := title, price := price,
           quantity := quantity, image := image }

/-- pydantic `List[OrderItem]` field: the value must be a sequence and every
element is validated as an `OrderItem`, in order. -/
def vItems (field : String) : Value → Except Err (List OrderItem)
  | .arr xs => mapE validateOrderItem xs
  | _ => .error (.wrongType field)

/-- A validated `Order` (schemas.py lines 49–61). -/
structure Order where
  customer_name : String
  customer_email : String
  shipping_address : String
  items : List OrderItem
  subtotal : ℚ
  tax : ℚ
  total : ℚ
  status : String

/-- pydantic validation of an `Order` payload, parametrised by the
`EmailStr` syntax predicate: `customer_name`/`customer_email`(email)/
`shipping_address` required, `items` a required list of `OrderItem`s (no
minimum length), `subtotal` required `float` `ge=0`, `tax` `float` `ge=0`
defaulting to `0`, `total` required `float` `ge=0`, `status` `str` defaulting
to `"pending"`. -/
def validateOrder (emailOk : String → Bool) (v : Value) : Except Err Order := do
  let o ← asObj "Order" v
  let customer_name ← reqField o "customer_name" vStr
  let customer_email ← reqField o "customer_email" (vEmail emailOk)
  let shipping_address ← reqField o "shipping_address" vStr
  let items ← reqField o "items" vItems
  let subtotal0 ← reqField o "subtotal" vFloat
  let subtotal ← geCheck "subtotal" 0 subtotal0
  let tax ← optField o "tax" (0 : ℚ) vFloatGe0
  let total0 ← reqField o "total" vFloat
  let total ← geCheck "total" 0 total0
  let status ← optField o "status" "pending" vStr
  return { customer_name := customer_name, customer_email := customer_email,
           shipping_address := shipping_address, items := items,
           subtotal := subtotal, tax := tax, total := total, status := status }

/-! ## Output models and the document mapper (src/main.py) -/

/-- `ProductOut` (main.py lines 23–30). -/
structure ProductOut where
  id : String
  title : String
  description : Option String
  price : ℚ
  category : String
  image : Option String
  in_stock : Bool

/-- `OrderOut` (main.py lines 32–41).  Note `customer_email` is a plain
`str` here, not `EmailStr`, while `items : List[OrderItem]` reuses the
schema's item model. -/
structure OrderOut where
  id : String
  customer_name : String
  customer_email : String
  shipping_address : String
  items : List OrderItem
  subtotal : ℚ
  tax : ℚ
  total : ℚ
  status : String

/-- `to_product_out(doc)` (main.py lines 44–53).  Python first evaluates the
keyword arguments — among which only `float(doc.get("price"))` can raise —
and then pydantic validates the `ProductOut` fields in declaration order.
`str(...)` and `bool(...)` never raise; `doc.get("in_stock", True)` supplies
the `True` default at lookup time. -/
def to_product_out (doc : Doc) : Except Err ProductOut := do
  let idArg := pyStr (dget doc "_id")
  let price ← pyFloat (dget doc "price")
  let in_stock := pyTruthy (dgetD doc "in_stock" (.bool true))
  let title ← vStr "title" (dget doc "title")
  let description ← vOptStr "description" (dget doc "description")
  let category ← vStr "category" (dget doc "category")
  let image ← vOptStr "image" (dget doc "image")
  return { id := idArg, title := title, description := description,
           price := price, category := category, image := image,
           in_stock := in_stock }

/-- `to_order_out(doc)` (main.py lines 56–67).  The keyword arguments supply
defaults at lookup time (`items` → `[]`, `subtotal`/`tax`/`total` → `0`,
`status` → `"pending"`) and `float(...)` coerces the three amounts; pydantic
then validates the `OrderOut` fields — in particular every element of
`items` is validated against the `OrderItem` schema. -/
def to_order_out (doc : Doc) : Except Err OrderOut := do
  let idArg := pyStr (dget doc "_id")
  let subtotal ← pyFloat (dgetD doc "subtotal" (.num 0))
  let tax ← pyFloat (dgetD doc "tax" (.num 0))
  let total ← pyFloat (dgetD doc "total" (.num 0))
  let customer_name ← vStr "customer_name" (dget doc "customer_name")
  let customer_email ← vStr "customer_email" (dget doc "customer_email")
  let shipping_address ← vStr "shipping_address" (dget doc "shipping_address")
  let items ← vItems "items" (dgetD doc "items" (.arr []))
  let status ← vStr "status" (dgetD doc "status" (.str "pending"))
  return { id := idArg, customer_name := customer_name,
           customer_email := customer_email,
           shipping_address := shipping_address, items := items,
           subtotal := subtotal, tax := tax, total := total,
           status := status }

/-! ## The store accessor boundary

`db`, `get_documents` and `create_document` come from `database`, which is
not among the sources; they are modelled from the spec: collection-scoped
find returning documents matching a filter, and create storing the record's
declared fields next to a store-generated `_id`. -/

/-- Modelled from the spec: the document store, a map from collection name
to its stored documents. -/
structure DB where
  colls : String → List Doc

/-- A condition of a find filter as this code builds them: exact equality
with a scalar, or `{"$regex": pat, "$options": "i"}`. -/
inductive FilterCond where
  | eq (w : Value)
  | regexI (pat : String)

/-- A filter dictionary: field name to condition. -/
abbrev Filter := List (String × FilterCond)

/-- Case-insensitive substring containment, the effect of the store's
`$regex` with option `"i"` on the literal patterns this code passes. -/
def containsI (pat t : String) : Bool :=
  decide (pat.data.map Char.toLower <:+: t.data.map Char.toLower)

/-- Whether a stored field value meets one filter condition.  Equality
conditions are only ever built with scalar values by the routes, so scalar
equality is modelled; an absent field (`null`) never matches. -/
def matchesCond (c : FilterCond) (v : Value) : Bool :=
  match c, v with
  | .eq (.str b), .str a => a == b
  | .eq (.num b), .num a => a == b
  | .eq (.bool b), .bool a => a == b
  | .eq .null, .null => true
  | .eq _, _ => false
  | .regexI p, .str t => containsI p t
  | .regexI _, _ => false

/-- A document matches a filter when it meets every condition. -/
def matchesFilter (f : Filter) (doc : Doc) : Bool :=
  f.all (fun kc => matchesCond kc.2 (dget doc kc.1))

/-- Modelled from the spec: `get_documents` (database.py, not among the
sources) returns the documents of the named collection that match the
filter. -/
def get_documents (d : DB) (coll : String) (f : Filter) : List Doc :=
  (d.colls coll).filter (matchesFilter f)

/-- Modelled from the spec: the document `create_document` stores for a
validated `Product` — its declared fields plus the store-assigned
identifier `_id`. -/
def productToDoc (i : String) (p : Product) : Doc :=
  [("_id", .oid i),
   ("title", .str p.title),
   ("description", match p.description with | some s => .str s | none => .null),
   ("price", .num p.price),
   ("category", .str p.category),
   ("image", match p.image with | some s => .str s | none => .null),
   ("in_stock", .bool p.in_stock)]

/-! ## Route handlers (src/main.py) -/

/-- An error escaping a route handler: an explicit `HTTPException`, or an
uncaught exception from the handler body (surfaced by the framework as a
server error). -/
inductive ApiErr where
  | http (status : ℕ) (detail : String)
  | uncaught (e : Err)

/-- Python truthiness of an `Optional[str]` query parameter: `None` and the
empty string are falsy. -/
def strTruthy : Option String → Bool
  | none => false
  | some s => !s.isEmpty

/-- The `filter_dict` built by `list_products` (main.py lines 79–83): start
empty; `if category:` add an equality condition on `category`; `if q:` add a
case-insensitive regex condition on `title`.  The truthiness tests skip
`None` and empty strings alike. -/
def buildProductFilter (category q : Option String) : Filter :=
  let fd : Filter := []
  let fd := if strTruthy category then
      fd ++ [("category", FilterCond.eq (.str (category.getD "")))] else fd
  let fd := if strTruthy q then
      fd ++ [("title", FilterCond.regexI (q.getD ""))] else fd
  fd

/-- `GET /products` (main.py lines 75–85): with `db` unconfigured return the
empty list; otherwise fetch the filtered documents and map each through
`to_product_out`. -/
def list_products (db : Option DB) (category q : Option String) :
    Except ApiErr (List ProductOut) :=
  match db with
  | none => .ok []
  | some d =>
    match mapE to_product_out (get_documents d "product" (buildProductFilter category q)) with
    | .error e => .error (.uncaught e)
    | .ok outs => .ok outs

/-- `POST /products` (main.py lines 88–93): with `db` unconfigured raise
`HTTPException(500)`; otherwise call the store accessor (kept abstract as
`createDoc`) and return the new identifier. -/
def create_product (createDoc : String → Product → String) (db : Option DB)
    (product : Product) : Except ApiErr String :=
  match db with
  | none => .error (.http 500 "Database not configured")
  | some _ => .ok (createDoc "product" product)

/-- `GET /orders` (main.py lines 96–101): with `db` unconfigured return the
empty list; otherwise fetch all documents of the `order` collection
(no filter) and map each through `to_order_out`. -/
def list_orders (db : Option DB) : Except ApiErr (List OrderOut) :=
  match db with
  | none => .ok []
  | some d =>
    match mapE to_order_out (get_documents d "order" []) with
    | .error e => .error (.uncaught e)
    | .ok outs => .ok outs

/-- `POST /orders` (main.py lines 104–109): with `db` unconfigured raise
`HTTPException(500)`; otherwise call the store accessor and return the new
identifier. -/
def create_order (createDoc : String → Order → String) (db : Option DB)
    (order : Order) : Except ApiErr String :=
  match db with
  | none => .error (.http 500 "Database not configured")
  | some _ => .ok (createDoc "order" order)

/-! ## The diagnostic endpoint (src/main.py lines 112–145) -/

/-- The observable behaviour of a connected store handle inside
`test_database`: its `name` attribute when present, and the outcome of
`list_collection_names()` — a list, or the message of the exception it
raised. -/
structure DBHandle where
  name : Option String
  list_collection_names : Except String (List String)

/-- The response record of `GET /test`. -/
structure TestResponse where
  backend : String
  database : String
  database_url : Option String
  database_name : Option String
  connection_status : String
  collections : List String

/-- `GET /test` (main.py lines 112–145).  The handler is total — every
exception a store call can raise is caught and folded into the `database`
string, truncated to 50 characters — which embeds the fact that the
endpoint never raises.  The trailing environment-variable report overwrites
`database_url` and `database_name` unconditionally. -/
def test_database (db : Option DBHandle) (hasUrl hasName : Bool) : TestResponse :=
  let r0 : TestResponse :=
    { backend := "✅ Running", database := "❌ Not Available",
      database_url := none, database_name := none,
      connection_status := "Not Connected", collections := [] }
  let r1 :=
    match db with
    | some d =>
      let base := { r0 with
        database := "✅ Available",
        database_url := some "✅ Configured",
        database_name := some (d.name.getD "✅ Connected"),
        connection_status := "Connected" }
      match d.list_collection_names with
      | .ok collections =>
        { base with
          collections := collections.take 10,
          database := "✅ Connected & Working" }
      | .error e =>
        { base with database := "⚠️  Connected but Error: " ++ e.take 50 }
    | none => { r0 with database := "⚠️  Available but not initialized" }
  { r1 with
    database_url := some (if hasUrl then "✅ Set" else "❌ Not Set"),
    database_name := some (if hasName then "✅ Set" else "❌ Not Set") }

/-! ## Helper lemmas -/

theorem bindOk {α β : Type} {x : Except Err α} {f : α → Except Err β} {b : β} :
    x >>= f = .ok b ↔ ∃ a, x = .ok a ∧ f a = .ok b := by
  cases x <;> simp [Bind.bind, Except.bind]

theorem ok_bind {α β : Type} {a : α} {f : α → Except Err β} :
    ((Except.ok a : Except Err α) >>= f) = f a := rfl

theorem isErr_bind_of {α β : Type} {x : Except Err α} {f : α → Except Err β}
    (h : ∀ a, isErr (f a) = true) : isErr (x >>= f) = true := by
  cases x with
  | error e => simp [Bind.bind, Except.bind, isErr]
  | ok a => simpa [Bind.bind, Except.bind] using h a

theorem isErr_bind_err {α β : Type} {x : Except Err α} {f : α → Except Err β}
    (h : isErr x = true) : isErr (x >>= f) = true := by
  cases x <;> simp [Bind.bind, Except.bind, isErr] at h ⊢

theorem mapE_ok_mem {α β : Type} {f : α → Except Err β} :
    ∀ {xs : List α} {ys : List β}, mapE f xs = .ok ys →
      ∀ y ∈ ys, ∃ x ∈ xs, f x = .ok y := by
  intro xs
  induction xs with
  | nil =>
    intro ys h y hy
    simp [mapE] at h
    subst h
    simp at hy
  | cons x xs ih =>
    intro ys h y hy
    rw [mapE] at h
    cases hfx : f x with
    | error e => rw [hfx] at h; exact absurd h (by simp)
    | ok b =>
      rw [hfx] at h
      cases hrest : mapE f xs with
      | error e => rw [hrest] at h; exact absurd h (by simp)
      | ok bs =>
        rw [hrest] at h
        obtain rfl : b :: bs = ys := by simpa using h
        rcases List.mem_cons.mp hy with rfl | hmem
        · exact ⟨x, List.mem_cons_self .., hfx⟩
        · obtain ⟨x0, hx0, hfx0⟩ := ih hrest y hmem
          exact ⟨x0, List.mem_cons_of_mem _ hx0, hfx0⟩

theorem mapE_isErr_of_mem {α β : Type} {f : α → Except Err β} {x : α} :
    ∀ {xs : List α}, x ∈ xs → isErr (f x) = true → isErr (mapE f xs) = true := by
  intro xs
  induction xs with
  | nil => intro h; simp at h
  | cons a xs ih =>
    intro hmem herr
    rcases List.mem_cons.mp hmem with rfl | hmem
    · rw [mapE]
      cases hfx : f x with
      | error e => simp [isErr]
      | ok b => rw [hfx] at herr; simp [isErr] at herr
    · rw [mapE]
      cases hfa : f a with
      | error e => simp [isErr]
      | ok b =>
        have := ih hmem herr
        cases hrest : mapE f xs with
        | error e => simp [isErr]
        | ok bs => rw [hrest] at this; simp [isErr] at this

theorem vItems_ok {f : String} {v : Value} {ys : List OrderItem}
    (h : vItems f v = .ok ys) :
    ∃ xs, v = .arr xs ∧ mapE validateOrderItem xs = .ok ys := by
  cases v <;> simp [vItems] at h
  case arr xs => exact ⟨xs, rfl, h⟩

theorem isEmpty_false_of_ne {s : String} (h : s ≠ "") : s.isEmpty = false := by
  cases hse : s.isEmpty with
  | false => rfl
  | true => exact absurd ((String.isEmpty_iff s).mp hse) h

theorem matchesCond_eq_str {c : String} {v : Value} :
    matchesCond (.eq (.str c)) v = true ↔ v = .str c := by
  cases v <;> simp [matchesCond]

theorem matchesCond_regexI {p : String} {v : Value} :
    matchesCond (.regexI p) v = true ↔ ∃ t, v = .str t ∧ containsI p t = true := by
  cases v <;> simp [matchesCond]

theorem geCheck_ok {f : String} {lo q r : ℚ} (h : geCheck f lo q = .ok r) : lo ≤ r := by
  unfold geCheck at h
  split at h
  next hle =>
    obtain rfl : q = r := by simpa using h
    exact hle
  next => exact absurd h (by simp)

theorem geCheckInt_ok {f : String} {lo n r : ℤ} (h : geCheckInt f lo n = .ok r) : lo ≤ r := by
  unfold geCheckInt at h
  split at h
  next hle =>
    obtain rfl : n = r := by simpa using h
    exact hle
  next => exact absurd h (by simp)

theorem vEmail_ok {emailOk : String → Bool} {f : String} {v : Value} {s : String}
    (h : vEmail emailOk f v = .ok s) : emailOk s = true := by
  simp only [vEmail] at h
  rcases bindOk.mp h with ⟨t, hvstr, h⟩
  split at h
  next ht =>
    obtain rfl : t = s := by simpa [pure, Except.pure] using h
    exact ht
  next => exact absurd h (by simp)

theorem reqField_ok {α : Type} {fs : List (String × Value)} {n : String}
    {f : String → Value → Except Err α} {a : α} (h : reqField fs n f = .ok a) :
    ∃ v, lookup? fs n = some v ∧ f n v = .ok a := by
  unfold reqField at h
  cases hlk : lookup? fs n with
  | none => rw [hlk] at h; exact absurd h (by simp)
  | some v => rw [hlk] at h; exact ⟨v, rfl, h⟩

theorem validateOrderItem_ok {v : Value} {it : OrderItem}
    (h : validateOrderItem v = .ok it) : 0 ≤ it.price ∧ 1 ≤ it.quantity := by
  simp only [validateOrderItem] at h
  rcases bindOk.mp h with ⟨ifs, hAs, h⟩
  rcases bindOk.mp h with ⟨pid, hPid, h⟩
  rcases bindOk.mp h with ⟨ttl, hTtl, h⟩
  rcases bindOk.mp h with ⟨pr0, hPr0, h⟩
  rcases bindOk.mp h with ⟨pr, hPr, h⟩
  rcases bindOk.mp h with ⟨qty0, hQty0, h⟩
  rcases bindOk.mp h with ⟨qty, hQty, h⟩
  rcases bindOk.mp h with ⟨img, hImg, h⟩
  have hit : it = { product_id := pid, title := ttl, price := pr, quantity := qty,
                    image := img } := by
    simpa [pure, Except.pure] using h.symm
  rw [hit]
  exact ⟨geCheck_ok hPr, geCheckInt_ok hQty⟩

theorem optField_ok {α : Type} {fs : List (String × Value)} {n : String} {dflt : α}
    {f : String → Value → Except Err α} {a : α} (h : optField fs n dflt f = .ok a) :
    (lookup? fs n = none ∧ a = dflt) ∨ ∃ v, lookup? fs n = some v ∧ f n v = .ok a := by
  unfold optField at h
  cases hlk : lookup? fs n with
  | none =>
    rw [hlk] at h
    exact Or.inl ⟨rfl, by simpa using h.symm⟩
  | some v => rw [hlk] at h; exact Or.inr ⟨v, rfl, h⟩

theorem vFloatGe0_ok {f : String} {v : Value} {q : ℚ} (h : vFloatGe0 f v = .ok q) :
    0 ≤ q := by
  simp only [vFloatGe0] at h
  rcases bindOk.mp h with ⟨q0, hq0, h⟩
  exact geCheck_ok h

/-! ## Claim theorems -/

/-- C1: When the database handle is unconfigured (`db` is `None`), the list
operations `GET /products` and `GET /orders` return an empty sequence rather
than an error, while the create operations `POST /products` and
`POST /orders` fail with HTTP 500 without calling the store (the outcome is
the same for every store accessor `cdP`/`cdO`, which is therefore never
consulted). -/
theorem db_none_reads_empty_writes_500 :
    ∀ (category q : Option String) (cdP : String → Product → String)
      (cdO : String → Order → String) (p : Product) (o : Order),
      list_products none category q = .ok [] ∧
      list_orders none = .ok [] ∧
      create_product cdP none p = .error (.http 500 "Database not configured") ∧
      create_order cdO none o = .error (.http 500 "Database not configured") := by
  intro category q cdP cdO p o
  exact ⟨rfl, rfl, rfl, rfl⟩

/-- C10: `GET /products` treats an empty-string query parameter as absent:
whatever the other parameter is, `category = ""` adds no category condition
(the filter and the handler result equal those for a missing `category`) and
`q = ""` adds no title condition (likewise equal to a missing `q`); with
both empty the filter is empty and every document of the collection reaches
the mapping stage. -/
theorem empty_string_params_treated_as_absent :
    ∀ (db : DB) (category q : Option String),
      buildProductFilter (some "") q = buildProductFilter none q ∧
      buildProductFilter category (some "") = buildProductFilter category none ∧
      list_products (some db) (some "") q = list_products (some db) none q ∧
      list_products (some db) category (some "") = list_products (some db) category none ∧
      buildProductFilter (some "") (some "") = [] ∧
      get_documents db "product" (buildProductFilter (some "") (some "")) =
        db.colls "product" := by
  intro db category q
  refine ⟨rfl, ?_, ?_, ?_, rfl, ?_⟩
  · cases category with
    | none => rfl
    | some c => rfl
  · rfl
  · cases category with
    | none => rfl
    | some c => rfl
  · exact List.filter_eq_self.mpr (fun a _ => rfl)

/-- C7: `GET /test` never raises — `test_database` is a total function into
`TestResponse`, every store failure being folded into the response.  With a
reachable store it reports the connected status and at most the first 10
collection names; when the collection-listing call fails, the exception text
is reported truncated to 50 characters instead of being propagated. -/
theorem test_endpoint_reports_without_raising :
    ∀ (d : DBHandle) (hasUrl hasName : Bool),
      (∀ cols, d.list_collection_names = .ok cols →
        (test_database (some d) hasUrl hasName).collections = cols.take 10 ∧
        (test_database (some d) hasUrl hasName).collections.length ≤ 10 ∧
        (test_database (some d) hasUrl hasName).database = "✅ Connected & Working" ∧
        (test_database (some d) hasUrl hasName).connection_status = "Connected") ∧
      (∀ e, d.list_collection_names = .error e →
        (test_database (some d) hasUrl hasName).database =
          "⚠️  Connected but Error: " ++ e.take 50 ∧
        (test_database (some d) hasUrl hasName).connection_status = "Connected") := by
  intro d hasUrl hasName
  constructor
  · intro cols h
    refine ⟨?_, ?_, ?_, ?_⟩ <;> simp [test_database, h, List.length_take]
  · intro e h
    exact ⟨by simp [test_database, h], by simp [test_database, h]⟩

/-- Witness for C7: a handle whose listing succeeds with three collections,
and one whose listing raises `"boom"`. -/
theorem test_endpoint_reports_without_raising_witness :
    (test_database (some ⟨some "shop", .ok ["a", "b", "c"]⟩) true true).collections =
      (["a", "b", "c"] : List String).take 10 ∧
    (test_database (some ⟨none, .error "boom"⟩) false false).database =
      "⚠️  Connected but Error: " ++ "boom".take 50 := by
  constructor
  · exact ((test_endpoint_reports_without_raising ⟨some "shop", .ok ["a", "b", "c"]⟩
      true true).1 ["a", "b", "c"] rfl).1
  · exact ((test_endpoint_reports_without_raising ⟨none, .error "boom"⟩
      false false).2 "boom" rfl).1

/-- C8: `Order` validation imposes no minimum length on `items`: a payload
whose `items` field is the empty sequence, with every other field valid,
validates successfully, and creating such a zero-item order through
`POST /orders` succeeds. -/
theorem empty_items_order_accepted :
    ∀ (emailOk : String → Bool) (nm em ad st : String) (sub tax tot : ℚ)
      (cd : String → Order → String) (d : DB),
      emailOk em = true → 0 ≤ sub → 0 ≤ tax → 0 ≤ tot →
      validateOrder emailOk (.obj [("customer_name", .str nm), ("customer_email", .str em),
        ("shipping_address", .str ad), ("items", .arr []), ("subtotal", .num sub),
        ("tax", .num tax), ("total", .num tot), ("status", .str st)]) =
        .ok { customer_name := nm, customer_email := em, shipping_address := ad,
              items := [], subtotal := sub, tax := tax, total := tot, status := st } ∧
      create_order cd (some d)
        { customer_name := nm, customer_email := em, shipping_address := ad,
          items := [], subtotal := sub, tax := tax, total := tot, status := st } =
        .ok (cd "order"
          { customer_name := nm, customer_email := em, shipping_address := ad,
            items := [], subtotal := sub, tax := tax, total := tot, status := st }) := by
  intro emailOk nm em ad st sub tax tot cd d he h1 h2 h3
  constructor
  · simp [validateOrder, asObj, reqField, optField, lookup?, vStr, vEmail, vFloat, vItems,
          vFloatGe0, mapE, geCheck, he, h1, h2, h3, Bind.bind, Except.bind, pure, Except.pure]
  · rfl

/-- Witness for C8: a concrete zero-item order payload validates and is
created. -/
theorem empty_items_order_accepted_witness :
    validateOrder emailOkSpec (.obj [("customer_name", .str "Ada"),
      ("customer_email", .str "ada@shop.example"), ("shipping_address", .str "1 Main St"),
      ("items", .arr []), ("subtotal", .num 0), ("tax", .num 0), ("total", .num 0),
      ("status", .str "pending")]) =
      .ok { customer_name := "Ada", customer_email := "ada@shop.example",
            shipping_address := "1 Main St", items := [], subtotal := 0, tax := 0,
            total := 0, status := "pending" } ∧
    create_order (fun _ _ => "deadbeef") (some ⟨fun _ => []⟩)
      { customer_name := "Ada", customer_email := "ada@shop.example",
        shipping_address := "1 Main St", items := [], subtotal := 0, tax := 0,
        total := 0, status := "pending" } = .ok "deadbeef" :=
  empty_items_order_accepted emailOkSpec "Ada" "ada@shop.example" "1 Main St" "pending"
    0 0 0 (fun _ _ => "deadbeef") ⟨fun _ => []⟩ (by rfl) (by norm_num) (by norm_num)
    (by norm_num)

/-- C2: for every payload validating as a `Product`, storing the validated
record with a store identifier and applying `to_product_out` yields an
output whose `title`, `description`, `price`, `category` and `image` equal
the validated payload's values, whose `id` is the textual form of the
identifier, and whose `in_stock` is `true` whenever the payload omitted
`in_stock`. -/
theorem validate_to_output_roundtrip :
    ∀ (fs : List (String × Value)) (p : Product) (i : String),
      validateProduct (.obj fs) = .ok p →
      to_product_out (productToDoc i p) =
        .ok { id := i, title := p.title, description := p.description,
              price := p.price, category := p.category, image := p.image,
              in_stock := p.in_stock } ∧
      (lookup? fs "in_stock" = none → p.in_stock = true) := by
  intro fs p i h
  constructor
  · obtain ⟨t, d, pr, c, im, s⟩ := p
    cases d <;> cases im <;>
      simp [to_product_out, productToDoc, dget, dgetD, lookup?, pyFloat, pyStr, pyTruthy,
            vStr, vOptStr, Bind.bind, Except.bind, pure, Except.pure]
  · intro hno
    simp only [validateProduct, asObj, ok_bind] at h
    rcases bindOk.mp h with ⟨title, hT, h⟩
    rcases bindOk.mp h with ⟨desc, hD, h⟩
    rcases bindOk.mp h with ⟨price0, hP0, h⟩
    rcases bindOk.mp h with ⟨price, hP, h⟩
    rcases bindOk.mp h with ⟨cat, hC, h⟩
    rcases bindOk.mp h with ⟨img, hI, h⟩
    rcases bindOk.mp h with ⟨instock, hS, h⟩
    rw [optField, hno] at hS
    obtain rfl : true = instock := by simpa using hS
    have hp : p = { title := title, description := desc, price := price, category := cat,
                    image := img, in_stock := true } := by
      simpa [pure, Except.pure] using h.symm
    rw [hp]

/-- Witness for C2: a concrete payload without `in_stock` validates, maps
through a stored document with identifier `"64b0c0ffee"`, and comes back out
with `in_stock = true`. -/
theorem validate_to_output_roundtrip_witness :
    to_product_out (productToDoc "64b0c0ffee"
      { title := "Lamp", description := none, price := 5, category := "home",
        image := none, in_stock := true }) =
      .ok { id := "64b0c0ffee", title := "Lamp", description := none, price := 5,
            category := "home", image := none, in_stock := true } ∧
    (lookup? [("title", Value.str "Lamp"), ("price", Value.num 5),
      ("category", Value.str "home")] "in_stock" = none →
      Product.in_stock
        { title := "Lamp", description := none, price := 5, category := "home",
          image := none, in_stock := true } = true) :=
  validate_to_output_roundtrip
    [("title", .str "Lamp"), ("price", .num 5), ("category", .str "home")]
    { title := "Lamp", description := none, price := 5, category := "home",
      image := none, in_stock := true } "64b0c0ffee" (by rfl)

/-- C9: `to_product_out` on a document whose `price` is absent (so
`doc.get("price")` is `None`) propagates the `TypeError` raised by
`float(None)` instead of a clean malformed-document error; and it never
fails on missing optional fields — with `title`, `category` and `price`
well-typed and `description`, `image`, `in_stock` absent, the conversion
succeeds with the defaults. -/
theorem to_product_out_missing_fields :
    ∀ (doc : Doc),
      (dget doc "price" = .null →
        to_product_out doc =
          .error (.typeError "float() argument must be a string or a real number, not NoneType")) ∧
      (∀ (t c : String) (q : ℚ), dget doc "title" = .str t → dget doc "category" = .str c →
        dget doc "price" = .num q → dget doc "description" = .null →
        dget doc "image" = .null → lookup? doc "in_stock" = none →
        to_product_out doc =
          .ok { id := pyStr (dget doc "_id"), title := t, description := none,
                price := q, category := c, image := none, in_stock := true }) := by
  intro doc
  constructor
  · intro hp
    simp [to_product_out, hp, pyFloat, Bind.bind, Except.bind]
  · intro t c q hT hC hP hD hI hno
    simp [to_product_out, dgetD, hT, hC, hP, hD, hI, hno, pyFloat, pyTruthy, vStr, vOptStr,
          Bind.bind, Except.bind, pure, Except.pure]

/-- Witness for C9: a document without `price` raises the `float(None)`
`TypeError`; a document carrying only `_id`, `title`, `category`, `price`
converts successfully with the defaults. -/
theorem to_product_out_missing_fields_witness :
    to_product_out [("title", Value.str "Desk"), ("category", Value.str "office")] =
      .error (.typeError "float() argument must be a string or a real number, not NoneType") ∧
    to_product_out [("_id", Value.oid "abc123"), ("title", Value.str "Desk"),
      ("category", Value.str "office"), ("price", Value.num 3)] =
      .ok { id := pyStr (dget [("_id", Value.oid "abc123"), ("title", Value.str "Desk"),
              ("category", Value.str "office"), ("price", Value.num 3)] "_id"),
            title := "Desk", description := none, price := 3, category := "office",
            image := none, in_stock := true } :=
  ⟨(to_product_out_missing_fields [("title", .str "Desk"), ("category", .str "office")]).1
      (by rfl),
   (to_product_out_missing_fields [("_id", .oid "abc123"), ("title", .str "Desk"),
      ("category", .str "office"), ("price", .num 3)]).2 "Desk" "office" 3
      (by rfl) (by rfl) (by rfl) (by rfl) (by rfl) (by rfl)⟩

/-- Counterexample to C4: the payload whose `title` is the empty string (and
whose other fields are valid) is not rejected — `title : str` carries no
minimum-length constraint (schemas.py line 35), so validation succeeds. -/
theorem empty_title_payload_validates :
    validateProduct (.obj [("title", Value.str ""), ("price", Value.num 1),
      ("category", Value.str "c")]) =
      .ok { title := "", description := none, price := 1, category := "c",
            image := none, in_stock := true } := by rfl

/-- C4 (amended): `Product` validation requires `title` to be present and a
string — a payload without a `title` field is rejected, and any accepted
payload carries its `title` string through — but the empty string is
accepted (no non-empty constraint is enforced). -/
theorem title_required_but_unconstrained :
    ∀ (fs : List (String × Value)),
      (lookup? fs "title" = none → isErr (validateProduct (.obj fs)) = true) ∧
      (∀ p, validateProduct (.obj fs) = .ok p →
        ∃ t, lookup? fs "title" = some (.str t) ∧ p.title = t) := by
  intro fs
  constructor
  · intro hno
    simp only [validateProduct, asObj, ok_bind]
    rw [reqField, hno]
    exact isErr_bind_err rfl
  · intro p h
    simp only [validateProduct, asObj, ok_bind] at h
    rcases bindOk.mp h with ⟨title, hT, h⟩
    rcases bindOk.mp h with ⟨desc, hD, h⟩
    rcases bindOk.mp h with ⟨price0, hP0, h⟩
    rcases bindOk.mp h with ⟨price, hP, h⟩
    rcases bindOk.mp h with ⟨cat, hC, h⟩
    rcases bindOk.mp h with ⟨img, hI, h⟩
    rcases bindOk.mp h with ⟨instock, hS, h⟩
    have hp : p = { title := title, description := desc, price := price, category := cat,
                    image := img, in_stock := instock } := by
      simpa [pure, Except.pure] using h.symm
    refine ⟨title, ?_, by rw [hp]⟩
    rw [reqField] at hT
    cases hlk : lookup? fs "title" with
    | none => rw [hlk] at hT; exact absurd hT (by simp)
    | some v =>
      rw [hlk] at hT
      cases v <;> simp [vStr] at hT
      subst hT
      rfl

/-- Witness for C4 (amended): a payload with no `title` field is rejected,
and the empty-title payload validates with `title = ""`. -/
theorem title_required_but_unconstrained_witness :
    isErr (validateProduct (.obj [("price", Value.num 1), ("category", Value.str "c")])) = true ∧
    ∃ t, lookup? [("title", Value.str ""), ("price", Value.num 1),
        ("category", Value.str "c")] "title" = some (.str t) ∧
      Product.title
        { title := "", description := none, price := 1, category := "c",
          image := none, in_stock := true } = t :=
  ⟨(title_required_but_unconstrained [("price", .num 1), ("category", .str "c")]).1 (by rfl),
   (title_required_but_unconstrained [("title", .str ""), ("price", .num 1),
      ("category", .str "c")]).2
     { title := "", description := none, price := 1, category := "c",
       image := none, in_stock := true } (by rfl)⟩

/-- Counterexample to C5: the items of a stored `Order` document are *not*
carried through unmodified without per-item revalidation — `OrderOut`'s
`items : List[OrderItem]` revalidates each stored item, so a document whose
stored item has `quantity = 0` (violating `ge=1`) makes `to_order_out` fail
instead of returning the stored sequence. -/
theorem stored_item_revalidated_on_read :
    isErr (to_order_out [("_id", Value.oid "a1"), ("customer_name", Value.str "n"),
      ("customer_email", Value.str "n@x.co"), ("shipping_address", Value.str "s"),
      ("items", Value.arr [Value.obj [("product_id", Value.str "p"),
        ("title", Value.str "t"), ("price", Value.num 1), ("quantity", Value.num 0)]]),
      ("subtotal", Value.num 1), ("total", Value.num 1)]) = true := by rfl

/-- C5 (amended): for every stored `Order` document accepted by
`to_order_out`, the store identifier is converted to its textual form,
`subtotal`/`tax`/`total` are the `float(...)` coercions of the stored values
with a default of 0 when absent, `status` defaults to `"pending"` when
absent, and the items sequence is carried through in order — but each item
is revalidated against the `OrderItem` schema during output-model
construction (rather than passed through without per-item revalidation). -/
theorem to_order_out_conversion :
    ∀ (doc : Doc) (o : OrderOut), to_order_out doc = .ok o →
      o.id = pyStr (dget doc "_id") ∧
      pyFloat (dgetD doc "subtotal" (.num 0)) = .ok o.subtotal ∧
      pyFloat (dgetD doc "tax" (.num 0)) = .ok o.tax ∧
      pyFloat (dgetD doc "total" (.num 0)) = .ok o.total ∧
      (lookup? doc "subtotal" = none → o.subtotal = 0) ∧
      (lookup? doc "tax" = none → o.tax = 0) ∧
      (lookup? doc "total" = none → o.total = 0) ∧
      (lookup? doc "status" = none → o.status = "pending") ∧
      (∃ its, dgetD doc "items" (.arr []) = .arr its ∧
        mapE validateOrderItem its = .ok o.items) := by
  intro doc o h
  simp only [to_order_out] at h
  rcases bindOk.mp h with ⟨sub, hSub, h⟩
  rcases bindOk.mp h with ⟨tax, hTax, h⟩
  rcases bindOk.mp h with ⟨tot, hTot, h⟩
  rcases bindOk.mp h with ⟨nm, hNm, h⟩
  rcases bindOk.mp h with ⟨em, hEm, h⟩
  rcases bindOk.mp h with ⟨ad, hAd, h⟩
  rcases bindOk.mp h with ⟨its, hIts, h⟩
  rcases bindOk.mp h with ⟨st, hSt, h⟩
  have ho : o = { id := pyStr (dget doc "_id"), customer_name := nm, customer_email := em,
                  shipping_address := ad, items := its, subtotal := sub, tax := tax,
                  total := tot, status := st } := by
    simpa [pure, Except.pure] using h.symm
  subst ho
  refine ⟨rfl, hSub, hTax, hTot, ?_, ?_, ?_, ?_, ?_⟩
  · intro hn; rw [dgetD, hn] at hSub; simpa [pyFloat] using hSub.symm
  · intro hn; rw [dgetD, hn] at hTax; simpa [pyFloat] using hTax.symm
  · intro hn; rw [dgetD, hn] at hTot; simpa [pyFloat] using hTot.symm
  · intro hn; rw [dgetD, hn] at hSt; simpa [vStr] using hSt.symm
  · obtain ⟨xs, hxs, hmap⟩ := vItems_ok hIts
    exact ⟨xs, hxs, hmap⟩

/-- Witness for C5 (amended): a stored document with one valid item and no
`tax`/`status` fields converts with `tax = 0`, `status = "pending"`, and the
item revalidated in place. -/
theorem to_order_out_conversion_witness :
    OrderOut.id
      { id := "a1", customer_name := "n", customer_email := "n@x.co",
        shipping_address := "s",
        items := [{ product_id := "p", title := "t", price := 1, quantity := 2,
                    image := none }],
        subtotal := 1, tax := 0, total := 1, status := "pending" } =
      pyStr (dget [("_id", Value.oid "a1"), ("customer_name", Value.str "n"),
        ("customer_email", Value.str "n@x.co"), ("shipping_address", Value.str "s"),
        ("items", Value.arr [Value.obj [("product_id", Value.str "p"),
          ("title", Value.str "t"), ("price", Value.num 1), ("quantity", Value.num 2)]]),
        ("subtotal", Value.num 1), ("total", Value.num 1)] "_id") ∧
    (lookup? [("_id", Value.oid "a1"), ("customer_name", Value.str "n"),
        ("customer_email", Value.str "n@x.co"), ("shipping_address", Value.str "s"),
        ("items", Value.arr [Value.obj [("product_id", Value.str "p"),
          ("title", Value.str "t"), ("price", Value.num 1), ("quantity", Value.num 2)]]),
        ("subtotal", Value.num 1), ("total", Value.num 1)] "tax" = none →
      OrderOut.tax
        { id := "a1", customer_name := "n", customer_email := "n@x.co",
          shipping_address := "s",
          items := [{ product_id := "p", title := "t", price := 1, quantity := 2,
                      image := none }],
          subtotal := 1, tax := 0, total := 1, status := "pending" } = 0) := by
  have h := to_order_out_conversion [("_id", .oid "a1"), ("customer_name", .str "n"),
    ("customer_email", .str "n@x.co"), ("shipping_address", .str "s"),
    ("items", .arr [.obj [("product_id", .str "p"), ("title", .str "t"),
      ("price", .num 1), ("quantity", .num 2)]]),
    ("subtotal", .num 1), ("total", .num 1)]
    { id := "a1", customer_name := "n", customer_email := "n@x.co",
      shipping_address := "s",
      items := [{ product_id := "p", title := "t", price := 1, quantity := 2,
                  image := none }],
      subtotal := 1, tax := 0, total := 1, status := "pending" } (by rfl)
  exact ⟨h.1, h.2.2.2.2.2.1⟩

/-- C6: `GET /products` with a non-empty `category` parameter selects exactly
the documents whose `category` field equals the given value; with a
non-empty `q` parameter, exactly those whose `title` contains `q` as a
case-insensitive substring; with both, exactly those meeting both
conditions. -/
theorem product_filter_semantics :
    ∀ (db : DB) (c s : String) (d : Doc), c ≠ "" → s ≠ "" →
      (d ∈ get_documents db "product" (buildProductFilter (some c) none) ↔
        d ∈ db.colls "product" ∧ dget d "category" = .str c) ∧
      (d ∈ get_documents db "product" (buildProductFilter none (some s)) ↔
        d ∈ db.colls "product" ∧ ∃ t, dget d "title" = .str t ∧ containsI s t = true) ∧
      (d ∈ get_documents db "product" (buildProductFilter (some c) (some s)) ↔
        d ∈ db.colls "product" ∧ (dget d "category" = .str c ∧
          ∃ t, dget d "title" = .str t ∧ containsI s t = true)) := by
  intro db c s d hc hs
  refine ⟨?_, ?_, ?_⟩ <;>
    simp [get_documents, buildProductFilter, strTruthy, isEmpty_false_of_ne hc,
          isEmpty_false_of_ne hs, List.mem_filter, matchesFilter, matchesCond_eq_str,
          matchesCond_regexI, and_assoc]

/-- Witness for C6: in a one-document store, the document with category
`"electronics"` and title `"Desk Lamp"` is selected by `category =
"electronics"` combined with `q = "lamp"` (case-insensitive). -/
theorem product_filter_semantics_witness :
    [("category", Value.str "electronics"), ("title", Value.str "Desk Lamp")] ∈
      get_documents ⟨fun _ => [[("category", Value.str "electronics"),
        ("title", Value.str "Desk Lamp")]]⟩ "product"
        (buildProductFilter (some "electronics") (some "lamp")) ↔
    [("category", Value.str "electronics"), ("title", Value.str "Desk Lamp")] ∈
      (DB.colls ⟨fun _ => [[("category", Value.str "electronics"),
        ("title", Value.str "Desk Lamp")]]⟩) "product" ∧
    (dget [("category", Value.str "electronics"), ("title", Value.str "Desk Lamp")]
      "category" = .str "electronics" ∧
     ∃ t, dget [("category", Value.str "electronics"), ("title", Value.str "Desk Lamp")]
        "title" = .str t ∧ containsI "lamp" t = true) :=
  (product_filter_semantics
    ⟨fun _ => [[("category", Value.str "electronics"), ("title", Value.str "Desk Lamp")]]⟩
    "electronics" "lamp"
    [("category", Value.str "electronics"), ("title", Value.str "Desk Lamp")]
    (by decide) (by decide)).2.2

/-- C3: `Order`/`OrderItem` validation rejects any payload with a negative
amount (item `price`, `subtotal`, `tax` or `total` below 0), an item
`quantity` less than 1, or a `customer_email` failing the email-syntax
predicate; every accepted order has non-negative `subtotal`, `tax` and
`total` (rationals modelling the coerced floats), items with non-negative
prices and quantities of at least 1, a syntactically valid email, and `tax`
defaults to 0 when the payload omits it. -/
theorem order_validation_constraints :
    (∀ (emailOk : String → Bool) (v : Value) (o : Order),
        validateOrder emailOk v = .ok o →
        0 ≤ o.subtotal ∧ 0 ≤ o.tax ∧ 0 ≤ o.total ∧
        (∀ it ∈ o.items, 0 ≤ it.price ∧ 1 ≤ it.quantity) ∧
        emailOk o.customer_email = true ∧
        (∀ fs, v = .obj fs → lookup? fs "tax" = none → o.tax = 0)) ∧
    (∀ (emailOk : String → Bool) (fs : List (String × Value)) (e : String),
        lookup? fs "customer_email" = some (.str e) → emailOk e = false →
        isErr (validateOrder emailOk (.obj fs)) = true) ∧
    (∀ (emailOk : String → Bool) (fs : List (String × Value)) (q : ℚ), q < 0 →
        (lookup? fs "subtotal" = some (.num q) ∨ lookup? fs "tax" = some (.num q) ∨
         lookup? fs "total" = some (.num q)) →
        isErr (validateOrder emailOk (.obj fs)) = true) ∧
    (∀ (ifs : List (String × Value)) (q : ℚ), q < 0 →
        lookup? ifs "price" = some (.num q) →
        isErr (validateOrderItem (.obj ifs)) = true) ∧
    (∀ (ifs : List (String × Value)) (q : ℚ), q < 1 →
        lookup? ifs "quantity" = some (.num q) →
        isErr (validateOrderItem (.obj ifs)) = true) ∧
    (∀ (emailOk : String → Bool) (fs : List (String × Value)) (its : List Value)
        (itv : Value), lookup? fs "items" = some (.arr its) → itv ∈ its →
        isErr (validateOrderItem itv) = true →
        isErr (validateOrder emailOk (.obj fs)) = true) := by
  refine ⟨?_, ?_, ?_, ?_, ?_, ?_⟩
  · -- acceptance side
    intro emailOk v o h
    simp only [validateOrder] at h
    rcases bindOk.mp h with ⟨fs, hAs, h⟩
    rcases bindOk.mp h with ⟨nm, hNm, h⟩
    rcases bindOk.mp h with ⟨em, hEm, h⟩
    rcases bindOk.mp h with ⟨ad, hAd, h⟩
    rcases bindOk.mp h with ⟨its, hIts, h⟩
    rcases bindOk.mp h with ⟨sub0, hSub0, h⟩
    rcases bindOk.mp h with ⟨sub, hSub, h⟩
    rcases bindOk.mp h with ⟨tax, hTax, h⟩
    rcases bindOk.mp h with ⟨tot0, hTot0, h⟩
    rcases bindOk.mp h with ⟨tot, hTot, h⟩
    rcases bindOk.mp h with ⟨st, hSt, h⟩
    have ho : o = { customer_name := nm, customer_email := em, shipping_address := ad,
                    items := its, subtotal := sub, tax := tax, total := tot,
                    status := st } := by
      simpa [pure, Except.pure] using h.symm
    subst ho
    refine ⟨geCheck_ok hSub, ?_, geCheck_ok hTot, ?_, ?_, ?_⟩
    · rcases optField_ok hTax with ⟨hnone, rfl⟩ | ⟨w, hlk, hok⟩
      · exact le_refl 0
      · exact vFloatGe0_ok hok
    · intro it hit
      obtain ⟨w, hlk, hvi⟩ := reqField_ok hIts
      obtain ⟨xs, rfl, hmap⟩ := vItems_ok hvi
      obtain ⟨x, hx, hxok⟩ := mapE_ok_mem hmap it hit
      exact validateOrderItem_ok hxok
    · obtain ⟨w, hlk, hve⟩ := reqField_ok hEm
      exact vEmail_ok hve
    · intro fs' hv hnone
      subst hv
      obtain rfl : fs' = fs := by simpa [asObj] using hAs
      rw [optField, hnone] at hTax
      obtain rfl : (0 : ℚ) = tax := by simpa using hTax
      rfl
  · -- malformed email rejected
    intro emailOk fs e hlk hbad
    simp only [validateOrder, asObj, ok_bind]
    apply isErr_bind_of
    intro nm
    have he : reqField fs "customer_email" (vEmail emailOk) =
        .error (.notEmail "customer_email") := by
      rw [reqField, hlk]
      simp [vEmail, vStr, hbad, Bind.bind, Except.bind]
    rw [he]
    exact isErr_bind_err rfl
  · -- negative subtotal / tax / total rejected
    intro emailOk fs q hq hdisj
    simp only [validateOrder, asObj, ok_bind]
    apply isErr_bind_of; intro nm
    apply isErr_bind_of; intro em
    apply isErr_bind_of; intro ad
    apply isErr_bind_of; intro its
    rcases hdisj with hlk | hlk | hlk
    · simp only [reqField, hlk, vFloat, ok_bind]
      have hgc : geCheck "subtotal" 0 q = .error (.outOfRange "subtotal") := by
        simp [geCheck, not_le.mpr hq]
      rw [hgc]
      exact isErr_bind_err rfl
    · apply isErr_bind_of; intro sub0
      apply isErr_bind_of; intro sub
      simp only [optField, hlk]
      have hvf : vFloatGe0 "tax" (.num q) = .error (.outOfRange "tax") := by
        simp [vFloatGe0, vFloat, geCheck, not_le.mpr hq, Bind.bind, Except.bind]
      rw [hvf]
      exact isErr_bind_err rfl
    · apply isErr_bind_of; intro sub0
      apply isErr_bind_of; intro sub
      apply isErr_bind_of; intro tax
      simp only [reqField, hlk, vFloat, ok_bind]
      have hgc : geCheck "total" 0 q = .error (.outOfRange "total") := by
        simp [geCheck, not_le.mpr hq]
      rw [hgc]
      exact isErr_bind_err rfl
  · -- negative item price rejected
    intro ifs q hq hlk
    simp only [validateOrderItem, asObj, ok_bind]
    apply isErr_bind_of; intro pid
    apply isErr_bind_of; intro ttl
    simp only [reqField, hlk, vFloat, ok_bind]
    have hgc : geCheck "price" 0 q = .error (.outOfRange "price") := by
      simp [geCheck, not_le.mpr hq]
    rw [hgc]
    exact isErr_bind_err rfl
  · -- quantity below 1 rejected
    intro ifs q hq hlk
    simp only [validateOrderItem, asObj, ok_bind]
    apply isErr_bind_of; intro pid
    apply isErr_bind_of; intro ttl
    apply isErr_bind_of; intro pr0
    apply isErr_bind_of; intro pr
    simp only [reqField, hlk, vInt]
    by_cases hden : q.den = 1
    · rw [if_pos hden, ok_bind]
      have hlt : q.num < 1 := by
        have hq' : (q.num : ℚ) = q := (Rat.den_eq_one_iff q).mp hden
        have : (q.num : ℚ) < 1 := hq' ▸ hq
        exact_mod_cast this
      have hgc : geCheckInt "quantity" 1 q.num = .error (.outOfRange "quantity") := by
        simp [geCheckInt, not_le.mpr hlt]
      rw [hgc]
      exact isErr_bind_err rfl
    · rw [if_neg hden]
      exact isErr_bind_err rfl
  · -- an invalid element of items rejects the whole order
    intro emailOk fs its itv hlk hmem herr
    simp only [validateOrder, asObj, ok_bind]
    apply isErr_bind_of; intro nm
    apply isErr_bind_of; intro em
    apply isErr_bind_of; intro ad
    simp only [reqField, hlk, vItems]
    exact isErr_bind_err (mapE_isErr_of_mem hmem herr)

/-- Witness for C3: a concrete valid one-item order (without `tax`) is
accepted with a validated email and `tax = 0`, while payloads with a
malformed email, a negative `subtotal`, a negative item `price`, a zero item
`quantity`, or an invalid element inside `items` are all rejected. -/
theorem order_validation_constraints_witness :
    emailOkSpec (Order.customer_email
      { customer_name := "Ada", customer_email := "ada@x.co", shipping_address := "s",
        items := [{ product_id := "p", title := "t", price := 2, quantity := 3,
                    image := none }],
        subtotal := 6, tax := 0, total := 6, status := "pending" }) = true ∧
    Order.tax
      { customer_name := "Ada", customer_email := "ada@x.co", shipping_address := "s",
        items := [{ product_id := "p", title := "t", price := 2, quantity := 3,
                    image := none }],
        subtotal := 6, tax := 0, total := 6, status := "pending" } = 0 ∧
    isErr (validateOrder emailOkSpec (.obj [("customer_email", Value.str "nope")])) = true ∧
    isErr (validateOrder emailOkSpec (.obj [("subtotal", Value.num (-1))])) = true ∧
    isErr (validateOrderItem (.obj [("price", Value.num (-2))])) = true ∧
    isErr (validateOrderItem (.obj [("quantity", Value.num 0)])) = true ∧
    isErr (validateOrder emailOkSpec (.obj [("items", Value.arr [Value.obj []])])) = true := by
  refine ⟨?_, ?_, ?_, ?_, ?_, ?_, ?_⟩
  · exact (order_validation_constraints.1 emailOkSpec
      (.obj [("customer_name", .str "Ada"), ("customer_email", .str "ada@x.co"),
        ("shipping_address", .str "s"),
        ("items", .arr [.obj [("product_id", .str "p"), ("title", .str "t"),
          ("price", .num 2), ("quantity", .num 3)]]),
        ("subtotal", .num 6), ("total", .num 6)])
      { customer_name := "Ada", customer_email := "ada@x.co", shipping_address := "s",
        items := [{ product_id := "p", title := "t", price := 2, quantity := 3,
                    image := none }],
        subtotal := 6, tax := 0, total := 6, status := "pending" }
      (by rfl)).2.2.2.2.1
  · exact (order_validation_constraints.1 emailOkSpec
      (.obj [("customer_name", .str "Ada"), ("customer_email", .str "ada@x.co"),
        ("shipping_address", .str "s"),
        ("items", .arr [.obj [("product_id", .str "p"), ("title", .str "t"),
          ("price", .num 2), ("quantity", .num 3)]]),
        ("subtotal", .num 6), ("total", .num 6)])
      { customer_name := "Ada", customer_email := "ada@x.co", shipping_address := "s",
        items := [{ product_id := "p", title := "t", price := 2, quantity := 3,
                    image := none }],
        subtotal := 6, tax := 0, total := 6, status := "pending" }
      (by rfl)).2.2.2.2.2
      [("customer_name", .str "Ada"), ("customer_email", .str "ada@x.co"),
        ("shipping_address", .str "s"),
        ("items", .arr [.obj [("product_id", .str "p"), ("title", .str "t"),
          ("price", .num 2), ("quantity", .num 3)]]),
        ("subtotal", .num 6), ("total", .num 6)] rfl (by rfl)
  · exact order_validation_constraints.2.1 emailOkSpec
      [("customer_email", .str "nope")] "nope" (by rfl) (by rfl)
  · exact order_validation_constraints.2.2.1 emailOkSpec
      [("subtotal", .num (-1))] (-1) (by norm_num) (Or.inl (by rfl))
  · exact order_validation_constraints.2.2.2.1
      [("price", .num (-2))] (-2) (by norm_num) (by rfl)
  · exact order_validation_constraints.2.2.2.2.1
      [("quantity", .num 0)] 0 (by norm_num) (by rfl)
  · exact order_validation_constraints.2.2.2.2.2 emailOkSpec
      [("items", .arr [.obj []])] [.obj []] (.obj []) (by rfl)
      (List.mem_singleton.mpr rfl) (by rfl)

end Shop
